import Mathlib

/-!
Verification of the session-based authentication core of the clinic records
API (`AuthService` in `src/auth/lucia.ts`, the auth routes in
`src/routes/auth.ts`, the identity-resolution preHandler in
`src/plugins/auth.ts`, and the authorization gate `requireAuth` in
`src/middleware/requireAuth.ts`).

The embedding models the Mongo-backed credential store as an explicit value
(`Store`, a list of user records and a list of session records), time as an
integer count of milliseconds (`Date.now()` becomes a `now : Int` parameter),
and store operations that may throw as computations in `Except`, with the
`try/catch` blocks of the source made explicit.  Each definition mirrors one
source function.
-/

namespace Clinic

/-- The four staff roles of `role: 'admin' | 'doctor' | 'nurse' | 'assistant'`. -/
inductive Role where
  | admin
  | doctor
  | nurse
  | assistant
  deriving DecidableEq, Repr

/-- The string stored in the `role` field, as compared by `roles.includes(...)`. -/
def Role.str : Role → String
  | .admin => "admin"
  | .doctor => "doctor"
  | .nurse => "nurse"
  | .assistant => "assistant"

/-- A user document (`IUser` in `src/models/authModels.ts`). -/
structure UserRec where
  _id : String
  email : String
  hashed_password : String
  role : Role
  deriving DecidableEq, Repr

/-- A session document (`ISession` in `src/models/authModels.ts`); the two
expiry fields are millisecond timestamps. -/
structure SessionRec where
  _id : String
  user_id : String
  active_expires : Int
  idle_expires : Int
  deriving DecidableEq, Repr

/-- The credential store: the `users` and `sessions` Mongo collections. -/
structure Store where
  users : List UserRec
  sessions : List SessionRec
  deriving DecidableEq, Repr

/-- `Session.findById(sessionId)`. -/
def Session.findById (st : Store) (sid : String) : Option SessionRec :=
  st.sessions.find? (fun s => s._id == sid)

/-- `Session.findByIdAndDelete(sessionId)`: the resulting store. -/
def Session.findByIdAndDelete (st : Store) (sid : String) : Store :=
  { st with sessions := st.sessions.filter (fun s => s._id != sid) }

/-- `Session.findByIdAndUpdate(sessionId, {active_expires: e, idle_expires: e})`:
the resulting store. -/
def Session.findByIdAndUpdate (st : Store) (sid : String) (e : Int) : Store :=
  { st with sessions := st.sessions.map (fun s =>
      if s._id == sid then { s with active_expires := e, idle_expires := e } else s) }

/-- `Session.deleteMany({user_id: userId})`: the resulting store. -/
def Session.deleteMany_user (st : Store) (uid : String) : Store :=
  { st with sessions := st.sessions.filter (fun s => s.user_id != uid) }

/-- `User.findById(id)`. -/
def User.findById (st : Store) (uid : String) : Option UserRec :=
  st.users.find? (fun u => u._id == uid)

/-- `User.findOne({email})`. -/
def User.findOne_email (st : Store) (email : String) : Option UserRec :=
  st.users.find? (fun u => u.email == email)

/-- `AuthService.SESSION_DURATION = 1000 * 60 * 60 * 24 * 7` (7 days in ms). -/
def SESSION_DURATION : Int := 1000 * 60 * 60 * 24 * 7

/-- The `SessionData` interface returned by the service
(`expiresAt` kept as the millisecond value of the `Date`). -/
structure SessionData where
  id : String
  userId : String
  expiresAt : Int
  deriving DecidableEq, Repr

/-- The `SessionUser` projection (no password hash field). -/
structure SessionUser where
  id : String
  email : String
  role : Role
  deriving DecidableEq, Repr

/-- Which store calls inside `validateSession`'s `try` block throw.  Each flag
makes the corresponding Mongo call reject instead of succeeding. -/
structure Faults where
  findSession : Bool
  deleteSession : Bool
  findUser : Bool
  updateSession : Bool
  deriving DecidableEq, Repr

/-- The fault-free store (every Mongo call succeeds). -/
def noFaults : Faults := ⟨false, false, false, false⟩

/-- The body of `AuthService.validateSession`'s `try` block, for a non-empty
token: each store call either throws (per `Faults`, carrying the store as it
stands at the throw) or proceeds exactly as the source does.  `now` stands for
`Date.now()`. -/
def validateSessionAux (f : Faults) (st : Store) (now : Int) (sid : String) :
    Except Store (Store × (Option SessionData × Option SessionUser)) :=
  if f.findSession then .error st else
  match Session.findById st sid with
  | none => .ok (st, none, none)
  | some s =>
    if s.active_expires < now then
      if f.deleteSession then .error st
      else .ok (Session.findByIdAndDelete st sid, none, none)
    else
      if f.findUser then .error st else
      match User.findById st s.user_id with
      | none =>
        if f.deleteSession then .error st
        else .ok (Session.findByIdAndDelete st sid, none, none)
      | some u =>
        if s.active_expires - now < SESSION_DURATION / 2 then
          if f.updateSession then .error st
          else .ok (Session.findByIdAndUpdate st sid (now + SESSION_DURATION),
                some ⟨s._id, s.user_id, s.active_expires⟩,
                some ⟨u._id, u.email, u.role⟩)
        else .ok (st, some ⟨s._id, s.user_id, s.active_expires⟩,
              some ⟨u._id, u.email, u.role⟩)

/-- `AuthService.validateSession(sessionId)`: the empty-token early return,
then the `try` block with its `catch` collapsing any store error to
`{session: null, user: null}`.  Returns the post store and the result pair. -/
def validateSession (f : Faults) (st : Store) (now : Int) (sid : String) :
    Store × (Option SessionData × Option SessionUser) :=
  if sid = "" then (st, none, none)
  else
    match validateSessionAux f st now sid with
    | .ok r => r
    | .error st1 => (st1, none, none)

/-- `AuthService.createSession(userId)`: `sessionId` stands for the freshly
generated random token; the new record is persisted with both expiry fields
set to `now + SESSION_DURATION`. -/
def createSession (st : Store) (now : Int) (sessionId userId : String) :
    Store × SessionData :=
  let expiresAt := now + SESSION_DURATION
  ({ st with sessions := st.sessions ++ [⟨sessionId, userId, expiresAt, expiresAt⟩] },
   ⟨sessionId, userId, expiresAt⟩)

/-- `AuthService.invalidateSession(sessionId)`. -/
def invalidateSession (st : Store) (sid : String) : Store :=
  Session.findByIdAndDelete st sid

/-- `AuthService.invalidateAllUserSessions(userId)`. -/
def invalidateAllUserSessions (st : Store) (uid : String) : Store :=
  Session.deleteMany_user st uid

/-- An HTTP response from an auth route: either an error body
`{error, message}` with a status code, or a success body
`{message, user: {id, email, role}}`. -/
inductive Response where
  | err (status : Nat) (error message : String)
  | okUser (status : Nat) (message : String) (user : SessionUser)
  deriving DecidableEq, Repr

/-- The `POST /login` handler (`src/routes/auth.ts`).  `verify` stands for
`argon2.verify` and may throw (e.g. on a malformed stored hash); any throw
inside the handler's `try` block reaches its `catch` and yields the 500
response.  `newSessionId` stands for the random token `createSession`
generates, `now` for `Date.now()`.  Fields absent from the JSON body arrive
as empty strings (JS falsiness of `!email || !password`). -/
def loginHandler (st : Store) (verify : String → String → Except Unit Bool)
    (newSessionId : String) (now : Int) (email password : String) :
    Store × Response :=
  if email = "" ∨ password = "" then
    (st, .err 400 "Validation Error" "Email and password are required")
  else
    match User.findOne_email st email with
    | none => (st, .err 401 "Unauthorized" "Invalid credentials")
    | some user =>
      match verify user.hashed_password password with
      | .error _ => (st, .err 500 "Internal Server Error" "Failed to login")
      | .ok false => (st, .err 401 "Unauthorized" "Invalid credentials")
      | .ok true =>
        let r := createSession st now newSessionId user._id
        (r.1, .okUser 200 "Logged in successfully" ⟨user._id, user.email, user.role⟩)

/-- The `POST /signup` handler (`src/routes/auth.ts`).  `hash` stands for
`argon2.hash`, `newUserId` for `randomUUID()`, `newSessionId` for the random
session token.  A missing `role` field is the `none` case of
`role || 'assistant'`. -/
def signupHandler (st : Store) (hash : String → String)
    (newUserId newSessionId : String) (now : Int)
    (email password : String) (role : Option Role) : Store × Response :=
  if email = "" ∨ password = "" then
    (st, .err 400 "Validation Error" "Email and password are required")
  else
    match User.findOne_email st email with
    | some _ => (st, .err 409 "Conflict" "Email already in use")
    | none =>
      let hashed := hash password
      let st1 : Store :=
        { st with users := st.users ++ [⟨newUserId, email, hashed, role.getD .assistant⟩] }
      let r := createSession st1 now newSessionId newUserId
      (r.1, .okUser 201 "User created successfully" ⟨newUserId, email, role.getD .assistant⟩)

/-- The identity-resolution `preHandler` hook (`src/plugins/auth.ts`):
reads `request.cookies?.session || ''`, short-circuits on the empty token,
otherwise calls `validateSession`; `validate` stands for that call and may
throw; the hook's `catch` collapses any exception to
`request.user = null; request.session = null`.  Returns the
`(request.user, request.session)` decoration. -/
def preHandler (cookieSession : Option String)
    (validate : String → Except String (Option SessionData × Option SessionUser)) :
    Option SessionUser × Option SessionData :=
  let sessionId := cookieSession.getD ""
  if sessionId = "" then (none, none)
  else
    match validate sessionId with
    | .ok r => (r.2, r.1)
    | .error _ => (none, none)

/-- The decision the `requireAuth` preHandler produces: reply with an error,
or fall through and let the route run. -/
inductive GateDecision where
  | reject (status : Nat) (error message : String)
  | allow
  deriving DecidableEq, Repr

/-- `requireAuth(roles?)` from `src/middleware/requireAuth.ts`, as the pure
decision on the already-resolved `request.user` and the optional role list:
`roles && roles.length > 0 && !roles.includes(request.user.role)`. -/
def requireAuth (roles : Option (List String)) (user : Option SessionUser) :
    GateDecision :=
  match user with
  | none => .reject 401 "Unauthorized" "Authentication required"
  | some u =>
    match roles with
    | none => .allow
    | some rs =>
      if rs.length > 0 && !(rs.contains u.role.str) then
        .reject 403 "Forbidden" "Insufficient permissions"
      else .allow

/-! ### Store lemmas -/

/-- Deleting a session id removes every record with that id from view. -/
theorem find?_filter_ne_eq_none (l : List SessionRec) (sid : String) :
    (l.filter (fun s => s._id != sid)).find? (fun s => s._id == sid) = none := by
  induction l with
  | nil => rfl
  | cons hd tl ih =>
    by_cases h : hd._id = sid
    · simp [List.filter_cons, h, ih]
    · simp [List.filter_cons, h, List.find?_cons_of_neg, ih]

/-- A lookup whose key was just deleted returns nothing. -/
theorem findById_delete_self (st : Store) (sid : String) :
    Session.findById (Session.findByIdAndDelete st sid) sid = none :=
  find?_filter_ne_eq_none st.sessions sid

/-- Looking up the updated id sees the record with both expiry fields set. -/
theorem find?_map_update (l : List SessionRec) (sid : String) (e : Int) :
    (l.map (fun s =>
        if s._id == sid then { s with active_expires := e, idle_expires := e } else s)).find?
        (fun s => s._id == sid)
      = (l.find? (fun s => s._id == sid)).map
          (fun s => { s with active_expires := e, idle_expires := e }) := by
  induction l with
  | nil => rfl
  | cons hd tl ih =>
    by_cases h : hd._id = sid
    · simp [h, List.find?_cons_of_pos]
    · simpa [h, List.find?_cons_of_neg] using ih

/-- Store-level version of `find?_map_update`. -/
theorem findById_update_self (st : Store) (sid : String) (e : Int) :
    Session.findById (Session.findByIdAndUpdate st sid e) sid
      = (Session.findById st sid).map
          (fun s => { s with active_expires := e, idle_expires := e }) :=
  find?_map_update st.sessions sid e

/-- The store keeps at most one session record per token (`_id` is the
primary key of the `sessions` collection). -/
def sessionKeysNodup (st : Store) : Prop :=
  (st.sessions.map (fun s => s._id)).Nodup

instance (st : Store) : Decidable (sessionKeysNodup st) := by
  unfold sessionKeysNodup; infer_instance

/-- `post` never shows a session of `pre` with its expiry moved backward:
any record of `post` sharing its id with a record of `pre` has an expiry at
least as late. -/
def ExpiryMono (pre post : Store) : Prop :=
  ∀ s0 ∈ pre.sessions, ∀ s1 ∈ post.sessions, s0._id = s1._id →
    s0.active_expires ≤ s1.active_expires

/-- With unique keys, records of one store sharing an id are equal. -/
theorem mem_id_eq {st : Store} (h : sessionKeysNodup st)
    {a b : SessionRec} (ha : a ∈ st.sessions) (hb : b ∈ st.sessions)
    (hid : a._id = b._id) : a = b :=
  List.inj_on_of_nodup_map h ha hb hid

/-- A store never moves its own expiries. -/
theorem expiryMono_refl (st : Store) (h : sessionKeysNodup st) :
    ExpiryMono st st := by
  intro s0 h0 s1 h1 hid
  rw [mem_id_eq h h0 h1 hid]

/-- Dropping records (any deletion) never moves an expiry backward. -/
theorem expiryMono_filter (st : Store) (p : SessionRec → Bool)
    (h : sessionKeysNodup st) :
    ExpiryMono st { st with sessions := st.sessions.filter p } := by
  intro s0 h0 s1 h1 hid
  rw [mem_id_eq h h0 (List.mem_of_mem_filter h1) hid]

/-- The sliding update moves the found record's expiry to `e`; provided the
found record's expiry was at most `e`, no expiry moves backward. -/
theorem expiryMono_update (st : Store) (sid : String) (e : Int) (s : SessionRec)
    (h : sessionKeysNodup st) (hs : Session.findById st sid = some s)
    (he : s.active_expires ≤ e) :
    ExpiryMono st (Session.findByIdAndUpdate st sid e) := by
  intro s0 h0 s1 h1 hid
  obtain ⟨t, ht, hupd⟩ := List.mem_map.mp h1
  by_cases hc : t._id = sid
  · have hsmem : s ∈ st.sessions := List.mem_of_find?_eq_some hs
    have hsid : s._id = sid := by
      have := List.find?_some hs
      simpa using this
    have hts : t = s := mem_id_eq h ht hsmem (hc.trans hsid.symm)
    have hs1 : s1 = { t with active_expires := e, idle_expires := e } := by
      rw [← hupd]; simp [hc]
    have h01 : s0 = t := by
      apply mem_id_eq h h0 ht
      rw [hid, hs1]
    rw [h01, hts, hs1, hts]
    exact he
  · have hs1 : s1 = t := by rw [← hupd]; simp [hc]
    rw [mem_id_eq h h0 ht (by rw [hid, hs1])]
    rw [hs1]

/-- Every run of `validateSession` leaves the store in one of three shapes:
untouched, with the token's record deleted, or with the token's record
extended — and the extension only happens for a live record inside the
sliding window. -/
theorem validateSession_post_cases (f : Faults) (st : Store) (now : Int)
    (sid : String) :
    (validateSession f st now sid).1 = st ∨
    (validateSession f st now sid).1 = Session.findByIdAndDelete st sid ∨
    ∃ s, Session.findById st sid = some s ∧ ¬ s.active_expires < now ∧
      s.active_expires - now < SESSION_DURATION / 2 ∧
      (validateSession f st now sid).1
        = Session.findByIdAndUpdate st sid (now + SESSION_DURATION) := by
  by_cases h0 : sid = ""
  · left; simp [validateSession, h0]
  by_cases hf : f.findSession = true
  · left; simp [validateSession, validateSessionAux, h0, hf]
  rcases hfind : Session.findById st sid with _ | s
  · left; simp [validateSession, validateSessionAux, h0, hf, hfind]
  by_cases hexp : s.active_expires < now
  · by_cases hd : f.deleteSession = true
    · left; simp [validateSession, validateSessionAux, h0, hf, hfind, hexp, hd]
    · right; left
      simp [validateSession, validateSessionAux, h0, hf, hfind, hexp, hd]
  by_cases hfu : f.findUser = true
  · left; simp [validateSession, validateSessionAux, h0, hf, hfind, hexp, hfu]
  rcases huser : User.findById st s.user_id with _ | u
  · by_cases hd : f.deleteSession = true
    · left
      simp [validateSession, validateSessionAux, h0, hf, hfind, hexp, hfu, huser, hd]
    · right; left
      simp [validateSession, validateSessionAux, h0, hf, hfind, hexp, hfu, huser, hd]
  by_cases hg : s.active_expires - now < SESSION_DURATION / 2
  · by_cases hu2 : f.updateSession = true
    · left
      simp [validateSession, validateSessionAux, h0, hf, hfind, hexp, hfu, huser, hg, hu2]
    · right; right
      refine ⟨s, rfl, hexp, hg, ?_⟩
      simp [validateSession, validateSessionAux, h0, hf, hfind, hexp, hfu, huser, hg, hu2]
  · left
    simp [validateSession, validateSessionAux, h0, hf, hfind, hexp, hfu, huser, hg]

/-- `validateSession` never moves an expiry backward, under any fault
pattern. -/
theorem validateSession_expiryMono (f : Faults) (st : Store) (now : Int)
    (sid : String) (h : sessionKeysNodup st) :
    ExpiryMono st (validateSession f st now sid).1 := by
  rcases validateSession_post_cases f st now sid with hc | hc | ⟨s, hs, _, hg, hc⟩
  · rw [hc]; exact expiryMono_refl st h
  · rw [hc]; exact expiryMono_filter st _ h
  · rw [hc]
    apply expiryMono_update st sid _ s h hs
    have hhalf : SESSION_DURATION / 2 ≤ SESSION_DURATION := by decide
    omega

/-- `createSession` only adds a record under a fresh token, so no existing
expiry moves. -/
theorem createSession_expiryMono (st : Store) (now : Int) (sid uid : String)
    (h : sessionKeysNodup st) (hfresh : ∀ t ∈ st.sessions, ¬ t._id = sid) :
    ExpiryMono st (createSession st now sid uid).1 := by
  intro s0 h0 s1 h1 hid
  simp only [createSession] at h1
  rcases List.mem_append.mp h1 with h1' | h1'
  · rw [mem_id_eq h h0 h1' hid]
  · exfalso
    have he1 : s1 = ⟨sid, uid, now + SESSION_DURATION, now + SESSION_DURATION⟩ :=
      List.mem_singleton.mp h1'
    exact hfresh s0 h0 (by rw [hid, he1])

/-- `invalidateSession` only deletes, so no expiry moves. -/
theorem invalidateSession_expiryMono (st : Store) (sid : String)
    (h : sessionKeysNodup st) : ExpiryMono st (invalidateSession st sid) :=
  expiryMono_filter st (fun s => s._id != sid) h

/-- `invalidateAllUserSessions` only deletes, so no expiry moves. -/
theorem invalidateAllUserSessions_expiryMono (st : Store) (uid : String)
    (h : sessionKeysNodup st) : ExpiryMono st (invalidateAllUserSessions st uid) :=
  expiryMono_filter st (fun s => s.user_id != uid) h

/-! ### Claims -/

/-- Claim C1: a session validated while more than 50% of the 7-day lifetime
remains keeps its stored expiry; validated while less than 50% remains, its
stored expiry strictly increases to `now + SESSION_DURATION`; and no Session
Service operation (`validateSession` under any fault pattern, `createSession`
with a fresh token, `invalidateSession`, `invalidateAllUserSessions`) ever
moves a stored session expiry backward in a store with unique session keys. -/
theorem C1_sliding_expiration (st : Store) (now : Int) (sid : String)
    (s : SessionRec) (u : UserRec)
    (hsid : ¬ sid = "")
    (hs : Session.findById st sid = some s)
    (hlive : ¬ s.active_expires < now)
    (hu : User.findById st s.user_id = some u) :
    (SESSION_DURATION / 2 < s.active_expires - now →
        (validateSession noFaults st now sid).1 = st)
    ∧ (s.active_expires - now < SESSION_DURATION / 2 →
        Session.findById (validateSession noFaults st now sid).1 sid
          = some { s with active_expires := now + SESSION_DURATION,
                          idle_expires := now + SESSION_DURATION }
        ∧ s.active_expires < now + SESSION_DURATION)
    ∧ (∀ f st2 now2 sid2, sessionKeysNodup st2 →
        ExpiryMono st2 (validateSession f st2 now2 sid2).1)
    ∧ (∀ st2 now2 sid2 uid2, sessionKeysNodup st2 →
        (∀ t ∈ st2.sessions, ¬ t._id = sid2) →
        ExpiryMono st2 (createSession st2 now2 sid2 uid2).1)
    ∧ (∀ st2 sid2, sessionKeysNodup st2 →
        ExpiryMono st2 (invalidateSession st2 sid2))
    ∧ (∀ st2 uid2, sessionKeysNodup st2 →
        ExpiryMono st2 (invalidateAllUserSessions st2 uid2)) := by
  refine ⟨?_, ?_, ?_, ?_, ?_, ?_⟩
  · intro hgt
    have hng : ¬ s.active_expires - now < SESSION_DURATION / 2 := by omega
    simp [validateSession, validateSessionAux, noFaults, hsid, hs, hlive, hu, hng]
  · intro hg
    have hpost : (validateSession noFaults st now sid).1
        = Session.findByIdAndUpdate st sid (now + SESSION_DURATION) := by
      simp [validateSession, validateSessionAux, noFaults, hsid, hs, hlive, hu, hg]
    constructor
    · rw [hpost, findById_update_self, hs]
      rfl
    · have hhalf : SESSION_DURATION / 2 ≤ SESSION_DURATION := by decide
      omega
  · exact fun f st2 now2 sid2 h2 => validateSession_expiryMono f st2 now2 sid2 h2
  · exact fun st2 now2 sid2 uid2 h2 hf2 =>
      createSession_expiryMono st2 now2 sid2 uid2 h2 hf2
  · exact fun st2 sid2 h2 => invalidateSession_expiryMono st2 sid2 h2
  · exact fun st2 uid2 h2 => invalidateAllUserSessions_expiryMono st2 uid2 h2

/-- Witness for C1 at a concrete store: a session with the full lifetime
remaining is validated without any change to the store. -/
theorem C1_sliding_expiration_witness :
    (validateSession noFaults
        ⟨[⟨"u1", "a@x.com", "h", Role.assistant⟩],
         [⟨"tok1", "u1", 604800000, 604800000⟩]⟩ 0 "tok1").1
      = ⟨[⟨"u1", "a@x.com", "h", Role.assistant⟩],
         [⟨"tok1", "u1", 604800000, 604800000⟩]⟩ :=
  (C1_sliding_expiration
      ⟨[⟨"u1", "a@x.com", "h", Role.assistant⟩],
       [⟨"tok1", "u1", 604800000, 604800000⟩]⟩ 0 "tok1"
      ⟨"tok1", "u1", 604800000, 604800000⟩ ⟨"u1", "a@x.com", "h", Role.assistant⟩
      (by decide) (by decide) (by decide) (by decide)).1 (by decide)

/-- A store holding one user and one session whose expiry equals the
validation instant. -/
def C2store : Store :=
  ⟨[⟨"u1", "a@x.com", "h", Role.assistant⟩], [⟨"tok1", "u1", 100, 100⟩]⟩

/-- Claim C2 counterexample: the code tests `session.active_expires <
Date.now()` strictly, so a session whose expiry is exactly the current time
is not rejected — `validateSession` returns the session and user and leaves
(indeed extends) the record, where the claim requires deletion and
`{null, null}`. -/
theorem C2_expiry_boundary_counterexample :
    (validateSession noFaults C2store 100 "tok1").2
      = (some ⟨"tok1", "u1", 100⟩, some ⟨"u1", "a@x.com", Role.assistant⟩)
    ∧ Session.findById (validateSession noFaults C2store 100 "tok1").1 "tok1"
        ≠ none := by
  constructor <;> decide

/-- Claim C2 as amended: for every non-empty token whose stored session has
expiry strictly before the current time, `validateSession` deletes the
record and returns `{null, null}`; afterward the session is absent and a
repeated call on the same token again returns `{null, null}`. -/
theorem C2_expired_session_rejected (st : Store) (now : Int) (sid : String)
    (s : SessionRec)
    (hsid : ¬ sid = "")
    (hs : Session.findById st sid = some s)
    (hexp : s.active_expires < now) :
    validateSession noFaults st now sid
      = (Session.findByIdAndDelete st sid, none, none)
    ∧ Session.findById (validateSession noFaults st now sid).1 sid = none
    ∧ validateSession noFaults (validateSession noFaults st now sid).1 now sid
        = ((validateSession noFaults st now sid).1, none, none) := by
  have hrun : validateSession noFaults st now sid
      = (Session.findByIdAndDelete st sid, none, none) := by
    simp [validateSession, validateSessionAux, noFaults, hsid, hs, hexp]
  refine ⟨hrun, ?_, ?_⟩
  · rw [hrun]
    exact findById_delete_self st sid
  · rw [hrun]
    simp [validateSession, validateSessionAux, noFaults, hsid,
      findById_delete_self st sid]

/-- Witness for the amended C2 at a concrete store. -/
theorem C2_expired_session_rejected_witness :
    validateSession noFaults ⟨[], [⟨"tok1", "u1", 50, 50⟩]⟩ 100 "tok1"
      = (Session.findByIdAndDelete ⟨[], [⟨"tok1", "u1", 50, 50⟩]⟩ "tok1",
         none, none) :=
  (C2_expired_session_rejected ⟨[], [⟨"tok1", "u1", 50, 50⟩]⟩ 100 "tok1"
      ⟨"tok1", "u1", 50, 50⟩ (by decide) (by decide) (by decide)).1

/-- Claim C6: a live session whose owning user id resolves to no user is
deleted by `validateSession`, which returns `{null, null}`; the record is
absent afterward. -/
theorem C6_orphan_session_deleted (st : Store) (now : Int) (sid : String)
    (s : SessionRec)
    (hsid : ¬ sid = "")
    (hs : Session.findById st sid = some s)
    (hlive : ¬ s.active_expires < now)
    (hu : User.findById st s.user_id = none) :
    validateSession noFaults st now sid
      = (Session.findByIdAndDelete st sid, none, none)
    ∧ Session.findById (validateSession noFaults st now sid).1 sid = none := by
  have hrun : validateSession noFaults st now sid
      = (Session.findByIdAndDelete st sid, none, none) := by
    simp [validateSession, validateSessionAux, noFaults, hsid, hs, hlive, hu]
  refine ⟨hrun, ?_⟩
  rw [hrun]
  exact findById_delete_self st sid

/-- Witness for C6: a store holding one live session and no users. -/
theorem C6_orphan_session_deleted_witness :
    validateSession noFaults ⟨[], [⟨"tok1", "ghost", 500, 500⟩]⟩ 100 "tok1"
      = (Session.findByIdAndDelete ⟨[], [⟨"tok1", "ghost", 500, 500⟩]⟩ "tok1",
         none, none) :=
  (C6_orphan_session_deleted ⟨[], [⟨"tok1", "ghost", 500, 500⟩]⟩ 100 "tok1"
      ⟨"tok1", "ghost", 500, 500⟩ (by decide) (by decide) (by decide)
      (by decide)).1

/-- Claim C9 (implicit): when the sliding extension fires, the session object
`validateSession` returns still carries the pre-extension expiry — it is
built from the record as read before the update — while the stored record now
holds `now + SESSION_DURATION`, strictly later; the caller-visible expiry is
stale exactly in the extension case. -/
theorem C9_returned_expiry_stale (st : Store) (now : Int) (sid : String)
    (s : SessionRec) (u : UserRec)
    (hsid : ¬ sid = "")
    (hs : Session.findById st sid = some s)
    (hlive : ¬ s.active_expires < now)
    (hu : User.findById st s.user_id = some u)
    (hg : s.active_expires - now < SESSION_DURATION / 2) :
    validateSession noFaults st now sid
      = (Session.findByIdAndUpdate st sid (now + SESSION_DURATION),
         some ⟨s._id, s.user_id, s.active_expires⟩,
         some ⟨u._id, u.email, u.role⟩)
    ∧ Session.findById (validateSession noFaults st now sid).1 sid
        = some { s with active_expires := now + SESSION_DURATION,
                        idle_expires := now + SESSION_DURATION }
    ∧ s.active_expires < now + SESSION_DURATION := by
  have hrun : validateSession noFaults st now sid
      = (Session.findByIdAndUpdate st sid (now + SESSION_DURATION),
         some ⟨s._id, s.user_id, s.active_expires⟩,
         some ⟨u._id, u.email, u.role⟩) := by
    simp [validateSession, validateSessionAux, noFaults, hsid, hs, hlive, hu, hg]
  refine ⟨hrun, ?_, ?_⟩
  · rw [hrun, findById_update_self, hs]
    rfl
  · have hhalf : SESSION_DURATION / 2 ≤ SESSION_DURATION := by decide
    omega

/-- Witness for C9: a session 50 ms from expiry is extended in the store but
reported with its old expiry. -/
theorem C9_returned_expiry_stale_witness :
    validateSession noFaults
        ⟨[⟨"u1", "a@x.com", "h", Role.assistant⟩], [⟨"tok1", "u1", 150, 150⟩]⟩
        100 "tok1"
      = (Session.findByIdAndUpdate
          ⟨[⟨"u1", "a@x.com", "h", Role.assistant⟩], [⟨"tok1", "u1", 150, 150⟩]⟩
          "tok1" (100 + SESSION_DURATION),
         some ⟨"tok1", "u1", 150⟩,
         some ⟨"u1", "a@x.com", Role.assistant⟩) :=
  (C9_returned_expiry_stale
      ⟨[⟨"u1", "a@x.com", "h", Role.assistant⟩], [⟨"tok1", "u1", 150, 150⟩]⟩
      100 "tok1" ⟨"tok1", "u1", 150, 150⟩ ⟨"u1", "a@x.com", "h", Role.assistant⟩
      (by decide) (by decide) (by decide) (by decide) (by decide)).1

/-- Claim C3: any store error thrown inside `validateSession`'s `try` block
is swallowed by its `catch` and the call returns `{null, null}`; and the
identity-resolution preHandler catches any exception from the validation
call and sets `request.user` and `request.session` to `null` instead of
aborting the request. -/
theorem C3_store_errors_swallowed :
    (∀ (f : Faults) (st : Store) (now : Int) (sid : String) (st1 : Store),
        validateSessionAux f st now sid = .error st1 →
        (validateSession f st now sid).2 = (none, none))
    ∧ (∀ (cookieSession : Option String)
        (validate : String → Except String (Option SessionData × Option SessionUser))
        (e : String),
        validate (cookieSession.getD "") = .error e →
        preHandler cookieSession validate = (none, none)) := by
  constructor
  · intro f st now sid st1 herr
    by_cases h0 : sid = ""
    · simp [validateSession, h0]
    · simp [validateSession, h0, herr]
  · intro cookieSession validate e herr
    by_cases h0 : cookieSession.getD "" = ""
    · simp [preHandler, h0]
    · simp [preHandler, h0, herr]

/-- Witness for C3: a failing session lookup on an empty store, and a
middleware validation call that throws. -/
theorem C3_store_errors_swallowed_witness :
    (validateSession ⟨true, false, false, false⟩ ⟨[], []⟩ 0 "tok1").2
      = (none, none)
    ∧ preHandler (some "tok1") (fun _ => .error "store unreachable")
        = (none, none) :=
  ⟨C3_store_errors_swallowed.1 ⟨true, false, false, false⟩ ⟨[], []⟩ 0 "tok1"
      ⟨[], []⟩ rfl,
   C3_store_errors_swallowed.2 (some "tok1")
      (fun _ => .error "store unreachable") "store unreachable" rfl⟩

/-- Claim C4: a login for an unknown email and a login for a known email
with a password that fails verification produce the same response — status
401 with the identical `Invalid credentials` body — so the response does not
distinguish the two cases. -/
theorem C4_no_user_enumeration (st : Store)
    (verify : String → String → Except Unit Bool)
    (nsid1 nsid2 : String) (now1 now2 : Int)
    (e1 p1 e2 p2 : String) (u : UserRec)
    (he1 : ¬ e1 = "") (hp1 : ¬ p1 = "")
    (he2 : ¬ e2 = "") (hp2 : ¬ p2 = "")
    (hu1 : User.findOne_email st e1 = none)
    (hu2 : User.findOne_email st e2 = some u)
    (hv : verify u.hashed_password p2 = .ok false) :
    (loginHandler st verify nsid1 now1 e1 p1).2
      = (loginHandler st verify nsid2 now2 e2 p2).2
    ∧ (loginHandler st verify nsid1 now1 e1 p1).2
        = Response.err 401 "Unauthorized" "Invalid credentials" := by
  have h1 : (loginHandler st verify nsid1 now1 e1 p1).2
      = Response.err 401 "Unauthorized" "Invalid credentials" := by
    simp [loginHandler, he1, hp1, hu1]
  have h2 : (loginHandler st verify nsid2 now2 e2 p2).2
      = Response.err 401 "Unauthorized" "Invalid credentials" := by
    simp [loginHandler, he2, hp2, hu2, hv]
  exact ⟨h1.trans h2.symm, h1⟩

/-- Witness for C4: one registered user, a verifier that rejects the
password; the unknown-email and wrong-password responses coincide. -/
theorem C4_no_user_enumeration_witness :
    (loginHandler ⟨[⟨"u1", "a@x.com", "H", Role.assistant⟩], []⟩
        (fun _ _ => .ok false) "s1" 0 "nouser@x.com" "anything").2
      = (loginHandler ⟨[⟨"u1", "a@x.com", "H", Role.assistant⟩], []⟩
          (fun _ _ => .ok false) "s2" 0 "a@x.com" "wrong").2 :=
  (C4_no_user_enumeration ⟨[⟨"u1", "a@x.com", "H", Role.assistant⟩], []⟩
      (fun _ _ => .ok false) "s1" "s2" 0 0 "nouser@x.com" "anything"
      "a@x.com" "wrong" ⟨"u1", "a@x.com", "H", Role.assistant⟩
      (by decide) (by decide) (by decide) (by decide)
      (by decide) (by decide) rfl).1

/-- A store holding one user whose stored password hash is malformed, and a
verifier that throws on that hash (as `argon2.verify` does on a string that
is not a valid encoded hash). -/
def C5store : Store := ⟨[⟨"u1", "a@x.com", "not-an-argon2-hash", Role.assistant⟩], []⟩

/-- Stands for `argon2.verify`: throws on the malformed stored hash,
otherwise reports a mismatch. -/
def C5verify : String → String → Except Unit Bool :=
  fun h _p => if h = "not-an-argon2-hash" then .error () else .ok false

/-- Claim C5 counterexample: when `argon2.verify` throws on a malformed
stored hash, the login handler's catch-all returns the 500 internal-error
response, not the 401 invalid-credentials rejection the claim requires. -/
theorem C5_malformed_hash_counterexample :
    (loginHandler C5store C5verify "s1" 0 "a@x.com" "pw").2
      = Response.err 500 "Internal Server Error" "Failed to login"
    ∧ (loginHandler C5store C5verify "s1" 0 "a@x.com" "pw").2
        ≠ Response.err 401 "Unauthorized" "Invalid credentials" := by
  constructor <;> decide

/-- Claim C5 as amended: a login against a user record whose stored hash
makes `verify` throw is answered with the 500 `Internal Server Error`
response (`Failed to login`) — the error is caught, so there is no crash,
but it surfaces as a 500, not as the 401 invalid-credentials rejection. -/
theorem C5_malformed_hash_500 (st : Store)
    (verify : String → String → Except Unit Bool)
    (nsid : String) (now : Int) (email password : String) (u : UserRec)
    (he : ¬ email = "") (hp : ¬ password = "")
    (hu : User.findOne_email st email = some u)
    (hv : verify u.hashed_password password = .error ()) :
    (loginHandler st verify nsid now email password).2
      = Response.err 500 "Internal Server Error" "Failed to login" := by
  simp [loginHandler, he, hp, hu, hv]

/-- Witness for the amended C5 at the concrete malformed-hash store. -/
theorem C5_malformed_hash_500_witness :
    (loginHandler C5store C5verify "s2" 0 "a@x.com" "secret").2
      = Response.err 500 "Internal Server Error" "Failed to login" :=
  C5_malformed_hash_500 C5store C5verify "s2" 0 "a@x.com" "secret"
    ⟨"u1", "a@x.com", "not-an-argon2-hash", Role.assistant⟩
    (by decide) (by decide) (by decide) rfl

/-- Claim C7: the authorization gate is the pure function `requireAuth` of
the resolved identity and the required role list alone (its type takes no
store and returns only a decision, so it performs no store access or state
change): no identity rejects with 401 `Authentication required`; an identity
with a non-empty role list not containing its role rejects with 403
`Insufficient permissions`; every other case — no role list, an empty role
list, or a role list containing the identity's role — allows. -/
theorem C7_authorization_gate (roles : Option (List String))
    (user : SessionUser) :
    requireAuth roles none
      = GateDecision.reject 401 "Unauthorized" "Authentication required"
    ∧ (∀ rs, roles = some rs → rs ≠ [] → user.role.str ∉ rs →
        requireAuth roles (some user)
          = GateDecision.reject 403 "Forbidden" "Insufficient permissions")
    ∧ (roles = none → requireAuth roles (some user) = GateDecision.allow)
    ∧ (∀ rs, roles = some rs → rs = [] →
        requireAuth roles (some user) = GateDecision.allow)
    ∧ (∀ rs, roles = some rs → user.role.str ∈ rs →
        requireAuth roles (some user) = GateDecision.allow) := by
  refine ⟨rfl, ?_, ?_, ?_, ?_⟩
  · intro rs hrs hne hmem
    subst hrs
    have hlen : 0 < rs.length := List.length_pos.mpr hne
    simp [requireAuth, hlen, hmem]
  · intro hrs; subst hrs; rfl
  · intro rs hrs hnil; subst hrs; subst hnil; rfl
  · intro rs hrs hmem
    subst hrs
    simp [requireAuth, hmem]

/-- Witness for C7: a nurse against the role list `["admin"]` is rejected
with 403. -/
theorem C7_authorization_gate_witness :
    requireAuth (some ["admin"]) (some ⟨"u1", "a@x.com", Role.nurse⟩)
      = GateDecision.reject 403 "Forbidden" "Insufficient permissions" :=
  (C7_authorization_gate (some ["admin"]) ⟨"u1", "a@x.com", Role.nurse⟩).2.1
    ["admin"] rfl (by decide) (by decide)

/-- Claim C8: `invalidateAllUserSessions u` removes exactly the sessions
owned by `u` — a session record is in the resulting store iff it was in the
store before and is not owned by `u` — and leaves the user collection
untouched. -/
theorem C8_invalidateAll_exact (st : Store) (uid : String) :
    (invalidateAllUserSessions st uid).users = st.users
    ∧ ∀ s : SessionRec,
        s ∈ (invalidateAllUserSessions st uid).sessions
          ↔ s ∈ st.sessions ∧ ¬ s.user_id = uid := by
  refine ⟨rfl, ?_⟩
  intro s
  simp [invalidateAllUserSessions, Session.deleteMany_user, List.mem_filter]

/-- Witness for C8: with two sessions owned by different users, exactly the
one owned by the invalidated user disappears. -/
theorem C8_invalidateAll_exact_witness :
    (⟨"t2", "u2", 9, 9⟩ : SessionRec)
        ∈ (invalidateAllUserSessions
            ⟨[], [⟨"t1", "u1", 5, 5⟩, ⟨"t2", "u2", 9, 9⟩]⟩ "u1").sessions
    ∧ ¬ (⟨"t1", "u1", 5, 5⟩ : SessionRec)
        ∈ (invalidateAllUserSessions
            ⟨[], [⟨"t1", "u1", 5, 5⟩, ⟨"t2", "u2", 9, 9⟩]⟩ "u1").sessions := by
  constructor
  · exact ((C8_invalidateAll_exact
        ⟨[], [⟨"t1", "u1", 5, 5⟩, ⟨"t2", "u2", 9, 9⟩]⟩ "u1").2
        ⟨"t2", "u2", 9, 9⟩).mpr ⟨by decide, by decide⟩
  · intro hmem
    exact absurd (((C8_invalidateAll_exact
        ⟨[], [⟨"t1", "u1", 5, 5⟩, ⟨"t2", "u2", 9, 9⟩]⟩ "u1").2
        ⟨"t1", "u1", 5, 5⟩).mp hmem).2 (by decide)

/-- Claim C10 (implicit): the public sign-up endpoint applies no restriction
to the caller-supplied role — for a well-formed sign-up whose body carries
role `r` (any of the four, `admin` included) the created user record and the
201 response carry exactly `r`, and when the role is omitted both carry
`assistant`. -/
theorem C10_signup_role_unrestricted (st : Store) (hash : String → String)
    (newUserId newSessionId : String) (now : Int)
    (email password : String) (role : Option Role)
    (he : ¬ email = "") (hp : ¬ password = "")
    (hfree : User.findOne_email st email = none) :
    (signupHandler st hash newUserId newSessionId now email password role).2
      = Response.okUser 201 "User created successfully"
          ⟨newUserId, email, role.getD Role.assistant⟩
    ∧ (signupHandler st hash newUserId newSessionId now email password role).1.users
        = st.users ++ [⟨newUserId, email, hash password, role.getD Role.assistant⟩]
    ∧ (∀ r : Role, role = some r → role.getD Role.assistant = r)
    ∧ (role = none → role.getD Role.assistant = Role.assistant) := by
  refine ⟨?_, ?_, ?_, ?_⟩
  · simp [signupHandler, he, hp, hfree]
  · simp [signupHandler, createSession, he, hp, hfree]
  · intro r hr; subst hr; rfl
  · intro hr; subst hr; rfl

/-- Witness for C10: signing up with role `admin` on an empty store yields a
201 response carrying role `admin`. -/
theorem C10_signup_role_unrestricted_witness :
    (signupHandler ⟨[], []⟩ (fun _ => "H") "u1" "s1" 0 "a@x.com" "pw"
        (some Role.admin)).2
      = Response.okUser 201 "User created successfully"
          ⟨"u1", "a@x.com", Role.admin⟩ :=
  (C10_signup_role_unrestricted ⟨[], []⟩ (fun _ => "H") "u1" "s1" 0
      "a@x.com" "pw" (some Role.admin) (by decide) (by decide) rfl).1

end Clinic
